import Mathlib

/-!
Shallow embedding of `cashier.py`, a terminal-based cashier application:
a fixed menu (Python dict from item number to `MenuItem`), a mutable cart
(Python dict from item number to `CartLine`), quantity accumulation,
total computation, currency/receipt formatting, and the interactive
selection/quantity parsing of the main loop.

Python dicts preserve insertion order; we embed them as association lists
`List (Nat × α)` where assignment to a fresh key appends at the end and
assignment to a present key updates the value in place.
-/

set_option autoImplicit false

namespace Cashier

/-- Source `MenuItem`: an immutable purchasable item (name, price in IDR).
All prices and quantities occurring in the program are non-negative
integers, so we use `Nat`. -/
structure MenuItem where
  name : String
  price : Nat
deriving DecidableEq, Repr

/-- Source `CartLine`: one line of the shopping cart (item, quantity). -/
structure CartLine where
  item : MenuItem
  quantity : Nat
deriving DecidableEq, Repr

/-- Source `CartLine.subtotal`: `self.item.price * self.quantity`. -/
def CartLine.subtotal (l : CartLine) : Nat :=
  l.item.price * l.quantity

/-- Python dict lookup `d[k]` / `d.get(k)` on an insertion-ordered
association list: the value of the first (and in a dict, only) entry
whose key equals `k`. -/
def dictGet? {α : Type} (d : List (Nat × α)) (k : Nat) : Option α :=
  match d with
  | [] => none
  | (k', v) :: rest => if k' = k then some v else dictGet? rest k

/-- Python dict assignment `d[k] = v`: overwrite the entry in place if the
key is present, otherwise append a new entry at the end. -/
def dictSet {α : Type} (d : List (Nat × α)) (k : Nat) (v : α) : List (Nat × α) :=
  match d with
  | [] => [(k, v)]
  | (k', v') :: rest => if k' = k then (k, v) :: rest else (k', v') :: dictSet rest k v

/-- The keys of a dict, in insertion order. -/
def dictKeys {α : Type} (d : List (Nat × α)) : List Nat :=
  d.map Prod.fst

/-- A cart: Python `Dict[int, CartLine]`. -/
abbrev Cart := List (Nat × CartLine)

/-- A menu: Python `Dict[int, MenuItem]`. -/
abbrev Menu := List (Nat × MenuItem)

/-- Source `build_menu`: the fixed ten-item menu with prices in IDR. -/
def build_menu : Menu :=
  [ (1, ⟨"Nasi Goreng", 25000⟩),
    (2, ⟨"Mie Goreng", 23000⟩),
    (3, ⟨"Ayam Bakar", 30000⟩),
    (4, ⟨"Sate Ayam", 28000⟩),
    (5, ⟨"Soto Ayam", 26000⟩),
    (6, ⟨"Pisang Goreng", 12000⟩),
    (7, ⟨"Roti Bakar", 15000⟩),
    (8, ⟨"Tempe Mendoan", 10000⟩),
    (9, ⟨"Teh Manis", 8000⟩),
    (10, ⟨"Kopi Tubruk", 12000⟩) ]

/-- Fuel-driven base-2 logarithm (floor), used to locate the binade of a
number; with `fuel ≥ n` it computes `⌊log₂ n⌋` for `n ≥ 1`. -/
def natLog2 (fuel n : Nat) : Nat :=
  match fuel with
  | 0 => 0
  | fuel + 1 => if 2 ≤ n then natLog2 fuel (n / 2) + 1 else 0

/-- CPython's `float(int)` conversion as it acts on non-negative integers:
IEEE-754 binary64 round-to-nearest, ties-to-even. Integers below `2^53`
are exactly representable; above, the value is rounded to the nearest
multiple of the unit in the last place of its binade. (Integers whose
rounded value reaches `2^1024` additionally raise `OverflowError` in
CPython; no value in this development is anywhere near that range.) -/
def floatOfNat (n : Nat) : Nat :=
  if n < 2 ^ 53 then n
  else
    let e := natLog2 n n
    let u := 2 ^ (e - 52)
    let q := n / u
    let r := n % u
    if 2 * r < u then q * u
    else if u < 2 * r then (q + 1) * u
    else if q % 2 = 0 then q * u else (q + 1) * u

/-- Insert a group separator after every third character of a reversed
digit string, as Python's `,` format option does (counting from the
right of the unreversed string). -/
def groupRev : List Char → List Char
  | a :: b :: c :: d :: rest => a :: b :: c :: ',' :: groupRev (d :: rest)
  | l => l

/-- Python `f"{v:,}"`-style digit grouping of a non-negative integer:
decimal digits with `,` every three digits from the right. -/
def commaGrouped (n : Nat) : String :=
  String.mk (groupRev (Nat.repr n).data.reverse).reverse

/-- Python `s.replace(",", ".")`: since the pattern is a single character,
this is a character-wise map. -/
def replaceCommaWithDot (s : String) : String :=
  String.mk (s.data.map (fun c => if c = ',' then '.' else c))

/-- Source `format_currency`: `f"Rp {value:,.0f}".replace(",", ".")`.
The `f` format type first converts the integer to a float (see
`floatOfNat`), formats it with no fractional digits and `,` grouping,
then the `replace` turns the commas into dots. -/
def format_currency (value : Nat) : String :=
  replaceCommaWithDot ("Rp " ++ commaGrouped (floatOfNat value))

/-- Source `add_to_cart`: if `item_number` is already a key of the cart,
increment that line's quantity by `quantity`; otherwise insert a fresh
`CartLine` built from `menu[item_number]`. The state available to the
function is the pair of the two dicts it receives; only the cart is ever
assigned to, so the menu component is returned unchanged. The `none`
result is the `KeyError` raised by `menu[item_number]` when the item is
in neither the cart nor the menu. -/
def add_to_cart (cart : Cart) (item_number : Nat) (menu : Menu) (quantity : Nat) :
    Option (Cart × Menu) :=
  match dictGet? cart item_number with
  | some line =>
      some (dictSet cart item_number ⟨line.item, line.quantity + quantity⟩, menu)
  | none =>
      match dictGet? menu item_number with
      | some item => some (dictSet cart item_number ⟨item, quantity⟩, menu)
      | none => none

/-- Source `calculate_total`: `sum(line.subtotal for line in cart.values())`. -/
def calculate_total (cart : Cart) : Nat :=
  (cart.map (fun p => p.2.subtotal)).sum

/-- Comparison used by `sorted(cart.items())`: tuples compare
lexicographically, and since dict keys are unique the comparison is
decided by the keys alone. -/
def keyLE (p q : Nat × CartLine) : Prop :=
  p.1 ≤ q.1

instance : DecidableRel keyLE :=
  fun p q => Nat.decLe p.1 q.1

instance : IsTotal (Nat × CartLine) keyLE :=
  ⟨fun p q => Nat.le_total p.1 q.1⟩

instance : IsTrans (Nat × CartLine) keyLE :=
  ⟨fun _ _ _ => Nat.le_trans⟩

/-- Python `sorted(cart.items())`: the entries reordered into ascending
key order by a stable sort. -/
def sortByKey (l : List (Nat × CartLine)) : List (Nat × CartLine) :=
  List.insertionSort keyLE l

/-- Python `f"{s:<w}"`: left-align in a field of `w` characters (never
truncates). -/
def padRight (s : String) (w : Nat) : String :=
  s ++ String.mk (List.replicate (w - s.length) ' ')

/-- Python `f"{s:>w}"`: right-align in a field of `w` characters (never
truncates). -/
def padLeft (s : String) (w : Nat) : String :=
  String.mk (List.replicate (w - s.length) ' ') ++ s

/-- Source `print_receipt`, with each `print(...)` call embedded as one
emitted string: the empty-cart message alone for an empty cart; otherwise
a header, a column-title row, a dashed rule, one row per cart entry in
ascending item-id order, a dashed rule, and the total row. -/
def print_receipt (cart : Cart) : List String :=
  if cart.isEmpty then
    ["\nYour cart is empty. Nothing to checkout."]
  else
    ["\n=== Itemized Bill ===",
     padRight "Item" 15 ++ padLeft "Qty" 5 ++ padLeft "Price" 12 ++ padLeft "Subtotal" 14,
     String.mk (List.replicate 46 '-')]
    ++ (sortByKey cart).map (fun p =>
          padRight p.2.item.name 15 ++ padLeft (Nat.repr p.2.quantity) 5
            ++ padLeft (format_currency p.2.item.price) 12
            ++ padLeft (format_currency p.2.subtotal) 14)
    ++ [String.mk (List.replicate 46 '-'),
        padRight "Total" 32 ++ padLeft (format_currency (calculate_total cart)) 14]

/-- Characters accepted by Python's `str.isdigit` that appear in this
development: the Unicode property Numeric_Type=Digit includes the ASCII
decimal digits together with, among others, the superscript and subscript
digits (this is the fragment of the Unicode table we model). -/
def pyCharIsDigit (c : Char) : Bool :=
  c.isDigit || c = '¹' || c = '²' || c = '³'
    || ('⁰' ≤ c && c ≤ '⁹') || ('₀' ≤ c && c ≤ '₉')

/-- Python `s.isdigit()`: non-empty and every character has
Numeric_Type=Digit. -/
def pyIsDigit (s : String) : Bool :=
  !s.isEmpty && s.data.all pyCharIsDigit

/-- Python `s.strip()` on the ASCII-whitespace fragment relevant here:
drop whitespace from both ends. -/
def pyStrip (s : String) : String :=
  String.mk (((s.data.dropWhile Char.isWhitespace).reverse.dropWhile Char.isWhitespace).reverse)

/-- Python `s.lower()`, character-wise (ASCII fragment; the special
characters used in this development are unaffected by lowering). -/
def pyLower (s : String) : String :=
  String.mk (s.data.map Char.toLower)

/-- Python `int(s)` for a stripped string: succeeds exactly on non-empty
strings of decimal digits (category Nd; the ASCII fragment is what this
development exercises), otherwise raises `ValueError` (`none`). In
particular the superscript digits accepted by `str.isdigit` are NOT
decimal digits, and `int` rejects them. -/
def pyIntOfString (s : String) : Option Nat :=
  if !s.isEmpty && s.data.all Char.isDigit then
    some (s.data.foldl (fun acc c => 10 * acc + (c.toNat - '0'.toNat)) 0)
  else
    none

/-- The result of `prompt_item_selection`: the source's
`(action, item_number)` pair, with the item number attached to `add`. -/
inductive Action where
  | add (item_number : Nat)
  | checkout
  | quit
  | invalid
deriving DecidableEq, Repr

/-- Source `prompt_item_selection`, as a function of the raw input line:
strip and lowercase the line; `"c"` is checkout and `"q"` is quit; a
non-`isdigit` string is invalid; otherwise `int(user_input)` runs (and
`none` records the uncaught `ValueError` it raises on digit-class
characters that are not decimal digits), and a number outside the menu is
invalid. -/
def prompt_item_selection (menu : Menu) (raw : String) : Option Action :=
  let user_input := pyLower (pyStrip raw)
  if user_input = "c" then some .checkout
  else if user_input = "q" then some .quit
  else if !pyIsDigit user_input then some .invalid
  else
    match pyIntOfString user_input with
    | none => none
    | some item_number =>
        if (dictGet? menu item_number).isSome then some (.add item_number)
        else some .invalid

/-- Source `prompt_quantity`, as a function of the raw input line: strip
the line; a non-`isdigit` string is invalid (`some none`); otherwise
`int(qty_input)` runs (outer `none` records its uncaught `ValueError`),
and a non-positive quantity is invalid. -/
def prompt_quantity (raw : String) : Option (Option Nat) :=
  let qty_input := pyStrip raw
  if !pyIsDigit qty_input then some none
  else
    match pyIntOfString qty_input with
    | none => none
    | some quantity => if quantity ≤ 0 then some none else some (some quantity)

/-- The observable outcome of one iteration of the `while True` loop in
`main`: loop again from the selection prompt with some cart, terminate
via quit or checkout, or crash on an uncaught exception. -/
inductive StepOutcome where
  | browse (cart : Cart)
  | quit
  | checkout (receipt : List String)
  | crash
deriving DecidableEq, Repr

/-- One iteration of the source `main` loop, fed the raw selection line
and (when the selection asks for it) the raw quantity line: dispatch on
the parsed action; on a valid selection parse the quantity, and on a
valid quantity mutate the cart via `add_to_cart`. `crash` records an
uncaught exception escaping the iteration. -/
def main_step (menu : Menu) (cart : Cart) (selRaw qtyRaw : String) : StepOutcome :=
  match prompt_item_selection menu selRaw with
  | none => .crash
  | some .quit => .quit
  | some .checkout => .checkout (print_receipt cart)
  | some .invalid => .browse cart
  | some (.add item_number) =>
      match prompt_quantity qtyRaw with
      | none => .crash
      | some none => .browse cart
      | some (some quantity) =>
          match add_to_cart cart item_number menu quantity with
          | none => .crash
          | some (cart2, _) => .browse cart2

/-- The derived subtotal of the line stored for `id`, or `0` when `id` is
not in the cart. -/
def cartSubtotalAt (cart : Cart) (id : Nat) : Nat :=
  ((dictGet? cart id).map CartLine.subtotal).getD 0

/-- Cart well-formedness: at most one line per item identifier (the keys
are pairwise distinct) and every stored quantity is strictly positive. -/
def CartWF (cart : Cart) : Prop :=
  (dictKeys cart).Nodup ∧ ∀ p ∈ cart, 0 < p.2.quantity

instance (cart : Cart) : Decidable (CartWF cart) := by
  unfold CartWF
  infer_instance

/-! Basic lemmas about the dict embedding. -/

theorem dictGet?_dictSet_self {α : Type} (d : List (Nat × α)) (k : Nat) (v : α) :
    dictGet? (dictSet d k v) k = some v := by
  induction d with
  | nil => simp [dictSet, dictGet?]
  | cons p rest ih =>
      obtain ⟨k', v'⟩ := p
      by_cases h : k' = k
      · simp [dictSet, dictGet?, h]
      · simp [dictSet, dictGet?, h, ih]

theorem dictGet?_dictSet_ne {α : Type} (d : List (Nat × α)) (k j : Nat) (v : α)
    (h : j ≠ k) : dictGet? (dictSet d k v) j = dictGet? d j := by
  induction d with
  | nil => simp [dictSet, dictGet?, Ne.symm h]
  | cons p rest ih =>
      obtain ⟨k', v'⟩ := p
      by_cases hk : k' = k
      · subst hk
        simp [dictSet, dictGet?, Ne.symm h]
      · simp [dictSet, dictGet?, hk, ih]

theorem dictKeys_dictSet_of_mem {α : Type} (d : List (Nat × α)) (k : Nat) (v w : α)
    (h : dictGet? d k = some w) : dictKeys (dictSet d k v) = dictKeys d := by
  induction d with
  | nil => simp [dictGet?] at h
  | cons p rest ih =>
      obtain ⟨k', v'⟩ := p
      by_cases hk : k' = k
      · simp [dictSet, dictKeys, hk]
      · simp [dictGet?, hk] at h
        simp [dictSet, dictKeys, hk] at ih ⊢
        exact ih h

theorem dictSet_of_not_mem {α : Type} (d : List (Nat × α)) (k : Nat) (v : α)
    (h : dictGet? d k = none) : dictSet d k v = d ++ [(k, v)] := by
  induction d with
  | nil => simp [dictSet]
  | cons p rest ih =>
      obtain ⟨k', v'⟩ := p
      by_cases hk : k' = k
      · simp [dictGet?, hk] at h
      · simp [dictGet?, hk] at h
        simp [dictSet, hk, ih h]

theorem mem_dictSet {α : Type} {d : List (Nat × α)} {k : Nat} {v : α} {p : Nat × α}
    (h : p ∈ dictSet d k v) : p = (k, v) ∨ p ∈ d := by
  induction d with
  | nil => simpa [dictSet] using h
  | cons q rest ih =>
      obtain ⟨k', v'⟩ := q
      by_cases hk : k' = k
      · simp [dictSet, hk] at h
        rcases h with h | h
        · exact Or.inl h
        · exact Or.inr (List.mem_cons_of_mem _ h)
      · simp [dictSet, hk] at h
        rcases h with h | h
        · exact Or.inr (by simp [h])
        · rcases ih h with h' | h'
          · exact Or.inl h'
          · exact Or.inr (List.mem_cons_of_mem _ h')

theorem dictGet?_eq_none_iff {α : Type} {d : List (Nat × α)} {k : Nat} :
    dictGet? d k = none ↔ k ∉ dictKeys d := by
  induction d with
  | nil => simp [dictGet?, dictKeys]
  | cons p rest ih =>
      obtain ⟨k', v'⟩ := p
      by_cases hk : k' = k
      · simp [dictGet?, dictKeys, hk]
      · simp [dictGet?, dictKeys, hk, ih, Ne.symm hk]

theorem calculate_total_eq_sum_over_keys (cart : Cart) (h : (dictKeys cart).Nodup) :
    calculate_total cart = ((dictKeys cart).map (cartSubtotalAt cart)).sum := by
  induction cart with
  | nil => rfl
  | cons p rest ih =>
      obtain ⟨k, v⟩ := p
      have hcons : dictKeys ((k, v) :: rest) = k :: dictKeys rest := rfl
      rw [hcons] at h
      have hk : k ∉ dictKeys rest := (List.nodup_cons.mp h).1
      have hrest : (dictKeys rest).Nodup := (List.nodup_cons.mp h).2
      have hmap : (dictKeys rest).map (cartSubtotalAt ((k, v) :: rest))
          = (dictKeys rest).map (cartSubtotalAt rest) := by
        refine List.map_congr_left (fun j hj => ?_)
        have hjk : ¬k = j := fun e => hk (e ▸ hj)
        simp [cartSubtotalAt, dictGet?, hjk]
      have h1 : calculate_total ((k, v) :: rest)
          = CartLine.subtotal v + calculate_total rest := by
        simp [calculate_total]
      rw [h1, hcons, List.map_cons, List.sum_cons, hmap, ← ih hrest]
      congr 1
      simp [cartSubtotalAt, dictGet?]

/-- Claim C1: for every valid item id and strictly positive quantities
`q1`, `q2`, adding `(id, q1)` and then `(id, q2)` to a cart that does not
yet contain `id` leaves exactly one cart line for `id`, with quantity
`q1 + q2` and subtotal `price(id) * (q1 + q2)`; the menu is untouched. -/
theorem C1_add_twice_accumulates (cart : Cart) (menu : Menu) (id q1 q2 : Nat)
    (item : MenuItem) (hmenu : dictGet? menu id = some item)
    (hfresh : dictGet? cart id = none) (_hq1 : 0 < q1) (_hq2 : 0 < q2) :
    ∃ c1 c2 : Cart,
      add_to_cart cart id menu q1 = some (c1, menu) ∧
      add_to_cart c1 id menu q2 = some (c2, menu) ∧
      dictGet? c2 id = some ⟨item, q1 + q2⟩ ∧
      CartLine.subtotal ⟨item, q1 + q2⟩ = item.price * (q1 + q2) ∧
      (dictKeys c2).count id = 1 := by
  refine ⟨dictSet cart id ⟨item, q1⟩,
    dictSet (dictSet cart id ⟨item, q1⟩) id ⟨item, q1 + q2⟩, ?_, ?_, ?_, rfl, ?_⟩
  · simp [add_to_cart, hfresh, hmenu]
  · simp [add_to_cart, dictGet?_dictSet_self]
  · exact dictGet?_dictSet_self ..
  · rw [dictKeys_dictSet_of_mem (dictSet cart id ⟨item, q1⟩) id ⟨item, q1 + q2⟩
      ⟨item, q1⟩ (dictGet?_dictSet_self cart id ⟨item, q1⟩),
      dictSet_of_not_mem _ _ _ hfresh]
    have h0 : id ∉ dictKeys cart := dictGet?_eq_none_iff.mp hfresh
    have h0' : (dictKeys cart).count id = 0 := List.count_eq_zero.mpr h0
    have hkeys : dictKeys (cart ++ [(id, (⟨item, q1⟩ : CartLine))])
        = dictKeys cart ++ [id] := by
      simp [dictKeys]
    rw [hkeys, List.count_append, h0']
    simp

/-- Witness for C1 at a concrete input: twice adding item 1 (Nasi Goreng,
price 25000) with quantities 2 and 3 to the empty cart. -/
theorem C1_add_twice_accumulates_witness :
    ∃ c1 c2 : Cart,
      add_to_cart [] 1 build_menu 2 = some (c1, build_menu) ∧
      add_to_cart c1 1 build_menu 3 = some (c2, build_menu) ∧
      dictGet? c2 1 = some ⟨⟨"Nasi Goreng", 25000⟩, 5⟩ ∧
      CartLine.subtotal ⟨⟨"Nasi Goreng", 25000⟩, 5⟩ = 25000 * 5 ∧
      (dictKeys c2).count 1 = 1 :=
  C1_add_twice_accumulates [] build_menu 1 2 3 ⟨"Nasi Goreng", 25000⟩ rfl rfl
    (by decide) (by decide)

/-- Claim C2: for every well-keyed cart, `calculate_total` equals the sum
of the subtotals of the ids present in the cart, and the total of the
empty cart is `0`. -/
theorem C2_total_is_sum_of_subtotals (cart : Cart) (h : (dictKeys cart).Nodup) :
    calculate_total cart = ((dictKeys cart).map (cartSubtotalAt cart)).sum ∧
    calculate_total ([] : Cart) = 0 :=
  ⟨calculate_total_eq_sum_over_keys cart h, rfl⟩

/-- Witness for C2 at a concrete two-line cart. -/
theorem C2_total_is_sum_of_subtotals_witness :
    calculate_total ([(9, ⟨⟨"Teh Manis", 8000⟩, 1⟩), (6, ⟨⟨"Pisang Goreng", 12000⟩, 2⟩)] : Cart)
        = ((dictKeys ([(9, ⟨⟨"Teh Manis", 8000⟩, 1⟩), (6, ⟨⟨"Pisang Goreng", 12000⟩, 2⟩)] : Cart)).map
            (cartSubtotalAt ([(9, ⟨⟨"Teh Manis", 8000⟩, 1⟩), (6, ⟨⟨"Pisang Goreng", 12000⟩, 2⟩)] : Cart))).sum ∧
    calculate_total ([] : Cart) = 0 :=
  C2_total_is_sum_of_subtotals
    ([(9, ⟨⟨"Teh Manis", 8000⟩, 1⟩), (6, ⟨⟨"Pisang Goreng", 12000⟩, 2⟩)] : Cart) (by decide)

/-- Claim C3: the four example renderings of `format_currency` from the
spec hold, but the exact-decimal-digits property fails for large amounts:
the `f`-type format first converts the integer to a binary64 float, so
`2^53 + 1 = 9007199254740993` is rendered with final digit 2 instead of
its exact decimal digits. -/
theorem C3_format_currency_examples_and_float_rounding :
    format_currency 0 = "Rp 0" ∧
    format_currency 1000 = "Rp 1.000" ∧
    format_currency 25000 = "Rp 25.000" ∧
    format_currency 1234567 = "Rp 1.234.567" ∧
    format_currency 9007199254740993 = "Rp 9.007.199.254.740.992" ∧
    format_currency 9007199254740993 ≠ "Rp 9.007.199.254.740.993" :=
  ⟨rfl, rfl, rfl, rfl, rfl, by decide⟩

/-- Claim C4: the selection prompt does not classify every raw line: a
line consisting of the superscript digit two passes `str.isdigit` but
makes `int()` raise an uncaught `ValueError`, so the loop iteration
crashes instead of reporting an invalid selection. -/
theorem C4_superscript_digit_crashes_selection :
    prompt_item_selection build_menu "²" = none ∧
    main_step build_menu [] "²" "1" = StepOutcome.crash :=
  ⟨rfl, rfl⟩

/-- Claim C5: checkout on an empty cart emits exactly the single
empty-cart message and nothing else. -/
theorem C5_empty_cart_receipt :
    print_receipt ([] : Cart) = ["\nYour cart is empty. Nothing to checkout."] :=
  rfl

/-- Claim C6: receipt rendering orders the cart lines by ascending item
id for every cart, and in the concrete scenario (add id 9 qty 1, then id
6 qty 2) the total is 32000 and the receipt lists id 6 before id 9. -/
theorem C6_receipt_ascending_id_order :
    (∀ cart : Cart, List.Pairwise (fun a b => a ≤ b) (dictKeys (sortByKey cart))) ∧
    (∃ c1 c2 : Cart,
      add_to_cart [] 9 build_menu 1 = some (c1, build_menu) ∧
      add_to_cart c1 6 build_menu 2 = some (c2, build_menu) ∧
      calculate_total c2 = 32000 ∧
      sortByKey c2 = [(6, ⟨⟨"Pisang Goreng", 12000⟩, 2⟩), (9, ⟨⟨"Teh Manis", 8000⟩, 1⟩)] ∧
      print_receipt c2 =
        ["\n=== Itemized Bill ===",
         "Item             Qty       Price      Subtotal",
         "----------------------------------------------",
         "Pisang Goreng      2   Rp 12.000     Rp 24.000",
         "Teh Manis          1    Rp 8.000      Rp 8.000",
         "----------------------------------------------",
         "Total                                Rp 32.000"]) := by
  constructor
  · intro cart
    exact List.pairwise_map.mpr (List.sorted_insertionSort keyLE cart)
  · exact ⟨[(9, ⟨⟨"Teh Manis", 8000⟩, 1⟩)],
      [(9, ⟨⟨"Teh Manis", 8000⟩, 1⟩), (6, ⟨⟨"Pisang Goreng", 12000⟩, 2⟩)],
      rfl, rfl, rfl, rfl, rfl⟩

/-- Claim C7: the classified invalid quantities ("0", "-1", "two") do
leave the cart unchanged and return to the selection prompt, but not
every invalid quantity is classified: after the valid selection "1", the
quantity line consisting of the superscript digit two makes `int()`
raise an uncaught `ValueError` and the iteration crashes. -/
theorem C7_invalid_quantity_handling_and_crash :
    prompt_quantity "²" = none ∧
    main_step build_menu [] "1" "²" = StepOutcome.crash ∧
    (∀ cart : Cart, main_step build_menu cart "1" "0" = StepOutcome.browse cart) ∧
    (∀ cart : Cart, main_step build_menu cart "1" "-1" = StepOutcome.browse cart) ∧
    (∀ cart : Cart, main_step build_menu cart "1" "two" = StepOutcome.browse cart) :=
  ⟨rfl, rfl, fun _ => rfl, fun _ => rfl, fun _ => rfl⟩

/-- Claim C8: the cart invariant (at most one line per id, all stored
quantities strictly positive) holds for the empty cart and is preserved
by `add_to_cart` whenever the added quantity is strictly positive. -/
theorem C8_cart_invariant_preserved :
    CartWF ([] : Cart) ∧
    ∀ (cart : Cart) (menu : Menu) (id q : Nat) (cart2 : Cart) (menu2 : Menu),
      CartWF cart → 0 < q → add_to_cart cart id menu q = some (cart2, menu2) →
      CartWF cart2 := by
  constructor
  · exact ⟨List.nodup_nil, by simp⟩
  · intro cart menu id q cart2 menu2 hwf hq hadd
    unfold add_to_cart at hadd
    cases h1 : dictGet? cart id with
    | some line =>
        rw [h1] at hadd
        have hc2 : cart2 = dictSet cart id ⟨line.item, line.quantity + q⟩ := by
          cases hadd
          rfl
        subst hc2
        constructor
        · rw [dictKeys_dictSet_of_mem _ _ _ _ h1]
          exact hwf.1
        · intro p hp
          rcases mem_dictSet hp with h | h
          · subst h
            exact Nat.lt_of_lt_of_le hq (Nat.le_add_left q line.quantity)
          · exact hwf.2 p h
    | none =>
        rw [h1] at hadd
        cases h2 : dictGet? menu id with
        | none =>
            rw [h2] at hadd
            cases hadd
        | some item =>
            rw [h2] at hadd
            have hc2 : cart2 = dictSet cart id ⟨item, q⟩ := by
              cases hadd
              rfl
            subst hc2
            constructor
            · rw [dictSet_of_not_mem _ _ _ h1]
              have h0 : id ∉ dictKeys cart := dictGet?_eq_none_iff.mp h1
              have : dictKeys (cart ++ [(id, (⟨item, q⟩ : CartLine))])
                  = dictKeys cart ++ [id] := by
                simp [dictKeys]
              rw [this]
              exact List.Nodup.append hwf.1 (List.nodup_singleton id) (by simpa using h0)
            · intro p hp
              rcases mem_dictSet hp with h | h
              · subst h
                exact hq
              · exact hwf.2 p h

/-- Witness for C8 at a concrete input: adding item 1 with quantity 2 to
the empty cart preserves the invariant. -/
theorem C8_cart_invariant_preserved_witness :
    CartWF ([(1, ⟨⟨"Nasi Goreng", 25000⟩, 2⟩)] : Cart) :=
  C8_cart_invariant_preserved.2 [] build_menu 1 2
    [(1, ⟨⟨"Nasi Goreng", 25000⟩, 2⟩)] build_menu (by decide) (by decide) rfl

/-- Claim C9: a successful `add_to_cart` returns the menu unchanged and
leaves the line of every other item id exactly as it was. -/
theorem C9_add_frame :
    ∀ (cart : Cart) (menu : Menu) (id q : Nat) (cart2 : Cart) (menu2 : Menu),
      add_to_cart cart id menu q = some (cart2, menu2) →
      menu2 = menu ∧ ∀ j : Nat, j ≠ id → dictGet? cart2 j = dictGet? cart j := by
  intro cart menu id q cart2 menu2 hadd
  unfold add_to_cart at hadd
  cases h1 : dictGet? cart id with
  | some line =>
      rw [h1] at hadd
      cases hadd
      exact ⟨rfl, fun j hj => dictGet?_dictSet_ne _ _ _ _ hj⟩
  | none =>
      rw [h1] at hadd
      cases h2 : dictGet? menu id with
      | none =>
          rw [h2] at hadd
          cases hadd
      | some item =>
          rw [h2] at hadd
          cases hadd
          exact ⟨rfl, fun j hj => dictGet?_dictSet_ne _ _ _ _ hj⟩

/-- Witness for C9 at a concrete input: after adding item 1 to the empty
cart, looking up item 2 gives the same (absent) answer as before. -/
theorem C9_add_frame_witness :
    dictGet? [(1, (⟨⟨"Nasi Goreng", 25000⟩, 5⟩ : CartLine))] 2 = dictGet? ([] : Cart) 2 :=
  (C9_add_frame [] build_menu 1 5 [(1, ⟨⟨"Nasi Goreng", 25000⟩, 5⟩)] build_menu rfl).2
    2 (by decide)

/-- Claim C10: `add_to_cart` consults the menu only when the id is not in
the cart: for an id already present the increment happens for any menu
whatsoever (in particular one not containing the id); for an id absent
from both cart and menu the `menu[item_number]` lookup raises; and when
every id missing from the cart is present in the menu, the call succeeds. -/
theorem C10_menu_lookup_only_when_absent :
    ∀ (cart : Cart) (menu : Menu) (id q : Nat),
      (∀ line : CartLine, dictGet? cart id = some line →
        add_to_cart cart id menu q
          = some (dictSet cart id ⟨line.item, line.quantity + q⟩, menu)) ∧
      (dictGet? cart id = none → dictGet? menu id = none →
        add_to_cart cart id menu q = none) ∧
      ((dictGet? cart id = none → (dictGet? menu id).isSome = true) →
        (add_to_cart cart id menu q).isSome = true) := by
  intro cart menu id q
  refine ⟨fun line h1 => by simp [add_to_cart, h1], fun h1 h2 => by simp [add_to_cart, h1, h2], ?_⟩
  intro h
  cases h1 : dictGet? cart id with
  | some line => simp [add_to_cart, h1]
  | none =>
      have h2 := h h1
      cases h2' : dictGet? menu id with
      | none => rw [h2'] at h2; cases h2
      | some item => simp [add_to_cart, h1, h2']

/-- Witness for C10 at concrete inputs: the increment succeeds against
the empty menu for an id already in the cart, the add fails when the id
is in neither cart nor menu, and it succeeds under the reachability
precondition. -/
theorem C10_menu_lookup_only_when_absent_witness :
    add_to_cart [(1, ⟨⟨"Nasi Goreng", 25000⟩, 2⟩)] 1 [] 3
      = some ([(1, ⟨⟨"Nasi Goreng", 25000⟩, 5⟩)], []) ∧
    add_to_cart [] 1 [] 3 = none ∧
    (add_to_cart [] 1 build_menu 3).isSome = true :=
  ⟨(C10_menu_lookup_only_when_absent [(1, ⟨⟨"Nasi Goreng", 25000⟩, 2⟩)] [] 1 3).1
      ⟨⟨"Nasi Goreng", 25000⟩, 2⟩ rfl,
   (C10_menu_lookup_only_when_absent [] [] 1 3).2.1 rfl rfl,
   (C10_menu_lookup_only_when_absent [] build_menu 1 3).2.2 (fun _ => rfl)⟩

end Cashier
